import Mathlib

/-!
Verification development for the msfback multi-step form wizard backend.

The embedding below translates the core of src/src/index.ts (the retry
wrapper, the store adapter getSession, the update engine updateSession and
the submit total computation) and the schemas module (the variant that
exports sessionIdSchema, which is the one src/src/index.ts imports) into
executable Lean definitions.  The external key-value store is modelled as
an association list of raw records; timestamps are passed in as explicit
parameters; JavaScript numbers that carry prices are modelled as exact
rationals (the spec's non-goals state the total computation is arithmetic
only); errors are strings, matching the source's use of Error messages.
-/

/-! ## Character-level helpers (string membership and regex checks) -/

/-- chStart needle hay: needle is an initial segment of hay (character lists). -/
def chStart : List Char → List Char → Bool
  | [], _ => true
  | _ :: _, [] => false
  | a :: as, b :: bs => a == b && chStart as bs

/-- chContains needle hay: needle occurs contiguously inside hay.  Models
JavaScript String.prototype.includes as used by withRetry in src/src/index.ts:74. -/
def chContains (needle : List Char) : List Char → Bool
  | [] => chStart needle []
  | b :: bs => chStart needle (b :: bs) || chContains needle bs

/-- Models the fail-fast classification in withRetry (src/src/index.ts:74):
the error message contains the substring "permission". -/
def isPermissionError (msg : String) : Bool :=
  chContains ("permission").data msg.data

/-- Splits a character list at every occurrence of c (occurrences are dropped);
always returns at least one (possibly empty) group.  Used to decompose a
string at the single '@' or at the '.' separators when deciding the email
regexes of the schemas module. -/
def splitAtChar (c : Char) : List Char → List (List Char)
  | [] => [[]]
  | x :: xs =>
    if x == c then [] :: splitAtChar c xs
    else
      match splitAtChar c xs with
      | [] => [[x]]
      | g :: gs => (x :: g) :: gs

/-- Two consecutive '.' characters occur somewhere in the list. -/
def hasDoubleDot : List Char → Bool
  | [] => false
  | [_] => false
  | a :: b :: rest => (a == '.' && b == '.') || hasDoubleDot (b :: rest)

/-! ## The email checks of PersonalInfoSchema

The schemas module builds the email rule as z.string().email().max(100).regex(...).
zod's own .email() check (the library is an external collaborator; its
published v3 pattern is
(?!\.)(?!.*\.\.)([A-Za-z0-9 _ ' + - .]*)[A-Za-z0-9 _ + -]@([A-Za-z0-9][A-Za-z0-9-]*\.)+[A-Za-z]{2,}
) and the explicit custom regex
[a-zA-Z0-9._%+-]+@[a-zA-Z0-9.-]+\.[a-zA-Z]{2,}
are both decided below on character lists; a string passes the schema's
email rule iff it passes both and has length at most 100. -/

/-- Characters allowed in the local part body of zod's email pattern
(the 39 is the apostrophe character). -/
def zodLocalChar (c : Char) : Bool :=
  c.isAlphanum || c == '_' || c.toNat == 39 || c == '+' || c == '-' || c == '.'

/-- Characters allowed as the final local-part character of zod's email pattern. -/
def zodLastChar (c : Char) : Bool :=
  c.isAlphanum || c == '_' || c == '+' || c == '-'

/-- The final domain group of zod's email pattern: at least two letters. -/
def zodTld (t : List Char) : Bool :=
  t.all Char.isAlpha && decide (2 ≤ t.length)

/-- The '.'-separated domain groups of zod's email pattern: one or more labels
(each starting alphanumeric, continuing alphanumeric or '-') and a final
letters-only group of length at least two. -/
def zodLabelsThenTld : List (List Char) → Bool
  | [] => false
  | [t] => zodTld t
  | lab :: rest =>
    (match lab with
     | [] => false
     | c :: cs => c.isAlphanum && cs.all (fun d => d.isAlphanum || d == '-')) &&
    zodLabelsThenTld rest

/-- Decides zod's .email() pattern on a string. -/
def zodEmailCheck (s : String) : Bool :=
  match splitAtChar '@' s.data with
  | [loc, domain] =>
    (match loc with
     | [] => false
     | c :: _ => !(c == '.')) &&
    !(hasDoubleDot s.data) &&
    loc.all zodLocalChar &&
    (match loc.getLast? with
     | some c => zodLastChar c
     | none => false) &&
    (match splitAtChar '.' domain with
     | [_] => false
     | parts => zodLabelsThenTld parts)
  | _ => false

/-- Local-part characters of the custom email regex of PersonalInfoSchema. -/
def customLocalChar (c : Char) : Bool :=
  c.isAlphanum || c == '.' || c == '_' || c == '%' || c == '+' || c == '-'

/-- Domain characters of the custom email regex of PersonalInfoSchema. -/
def customDomainChar (c : Char) : Bool :=
  c.isAlphanum || c == '.' || c == '-'

/-- The custom regex's domain tail matches when the domain splits at position i
into a nonempty run of domain characters, a '.', and at least two letters. -/
def customDomainAt (domain : List Char) (i : Nat) : Bool :=
  decide (1 ≤ i) && (domain.take i).all customDomainChar &&
  ((domain.drop i).head? == some '.') &&
  ((domain.drop (i + 1)).all Char.isAlpha) &&
  decide (2 ≤ (domain.drop (i + 1)).length)

/-- Existential regex matching for the custom regex's domain part. -/
def customDomainOk (domain : List Char) : Bool :=
  (List.range domain.length).any (customDomainAt domain)

/-- Decides the custom anchored email regex of PersonalInfoSchema. -/
def customEmailCheck (s : String) : Bool :=
  match splitAtChar '@' s.data with
  | [loc, domain] => !(loc.isEmpty) && loc.all customLocalChar && customDomainOk domain
  | _ => false

/-! ## Data model (FormSession and its sections) -/

/-- The personal_info section: three strings, as in the PersonalInfo type used
by the schemas module. -/
structure PersonalInfo where
  name : String
  email : String
  phone : String
deriving DecidableEq

/-- The plan_selection section.  Raw strings so that stored or merged data can
fail the schema; validity is a separate predicate. -/
structure PlanSelection where
  plan_id : String
  billing_period : String
deriving DecidableEq

/-- PersonalInfoSchema.safeParse(...).success: name at least 2 characters,
email passing zod's .email(), .max(100) and the custom regex; the phone field
is a bare string transform and never fails. -/
def personalInfoValid (p : PersonalInfo) : Bool :=
  decide (2 ≤ p.name.length) && zodEmailCheck p.email &&
  decide (p.email.length ≤ 100) && customEmailCheck p.email

/-- PlanSelectionSchema.safeParse(...).success. -/
def planSelectionValid (p : PlanSelection) : Bool :=
  (p.plan_id == ("arcade") || p.plan_id == ("advanced") || p.plan_id == ("pro")) &&
  (p.billing_period == ("yearly") || p.billing_period == ("monthly"))

/-- Membership in the AddonIdEnum of the schemas module. -/
def addonIdValid (a : String) : Bool :=
  a == ("customizable_profile") || a == ("larger_storage") || a == ("online_services")

/-- A record as deserialized from the store, before the isFormSession shape
check: id may be missing or non-string (none), current_step may be
non-numeric (none) or out of range, and each optional section may be present
with content that fails its schema. -/
structure RawData where
  id : Option String
  current_step : Option Int
  personal_info : Option PersonalInfo
  plan_selection : Option PlanSelection
  addons : Option (List String)
  created_at : Option String
  updated_at : Option String
deriving DecidableEq

/-- A session after the isFormSession narrowing: id is a string and
current_step a number.  Timestamps stay optional because isFormSession does
not inspect them. -/
structure FormSession where
  id : String
  current_step : Int
  personal_info : Option PersonalInfo
  plan_selection : Option PlanSelection
  addons : Option (List String)
  created_at : Option String
  updated_at : Option String
deriving DecidableEq

/-- Re-serialization of a narrowed session, as stored by kv.put. -/
def FormSession.toRaw (s : FormSession) : RawData :=
  ⟨some s.id, some s.current_step, s.personal_info, s.plan_selection, s.addons,
   s.created_at, s.updated_at⟩

/-- The duck-typed shape check of src/src/index.ts:39-60: id is a string,
current_step is a number in [1,4], and every present optional section passes
its schema. -/
def isFormSession (d : RawData) : Bool :=
  d.id.isSome &&
  (match d.current_step with
   | some n => decide (1 ≤ n ∧ n ≤ 4)
   | none => false) &&
  (match d.personal_info with
   | some p => personalInfoValid p
   | none => true) &&
  (match d.plan_selection with
   | some p => planSelectionValid p
   | none => true) &&
  (match d.addons with
   | some l => l.all addonIdValid
   | none => true)

/-- Narrowing of a raw record to a FormSession (the implicit type-guard cast
after isFormSession in src/src/index.ts:142-148). -/
def toSessionNarrow (d : RawData) : Option FormSession :=
  match d.id, d.current_step with
  | some i, some n =>
    some ⟨i, n, d.personal_info, d.plan_selection, d.addons, d.created_at, d.updated_at⟩
  | _, _ => none

/-! ## The key-value store -/

/-- The external store: an association list from keys to raw records.  A
single get/put/delete is atomic at single-key granularity, matching the
spec's store contract. -/
abbrev Store := List (String × RawData)

/-- kv.get with the json deserialization hint: the stored record for a key. -/
def kvGetRaw (st : Store) (k : String) : Option RawData :=
  match st.find? (fun p => p.1 == k) with
  | some p => some p.2
  | none => none

/-- kv.delete: removes the record for a key (idempotent). -/
def kvDelete (st : Store) (k : String) : Store :=
  st.filter (fun p => !(p.1 == k))

/-- kv.put: replaces the record for a key (the TTL refresh is not a
store-content effect and is not modelled). -/
def kvPut (st : Store) (k : String) (v : RawData) : Store :=
  (k, v) :: kvDelete st k

/-- Keys are namespaced as session:<id>. -/
def sessionKey (sid : String) : String :=
  ("session:") ++ sid

/-! ## The retry wrapper (withRetry, src/src/index.ts:63-83) -/

/-- MAX_RETRIES of src/src/index.ts:28. -/
def MAX_RETRIES : Nat := 3

/-- INITIAL_RETRY_DELAY_MS of src/src/index.ts:29. -/
def INITIAL_RETRY_DELAY_MS : Nat := 100

/-- The body of withRetry's for-loop, recursing on the number of remaining
loop iterations (remaining = maxRetries - attempt).  The wrapped operation
threads a state of type σ (used for the store, and for per-attempt fault
schedules).  The result records, besides the operation outcome and the final
state, the number of times the operation was invoked and the list of backoff
delays (initialDelayMs * 2 ^ attempt, slept only when another attempt is
still allowed) the loop performs.  An error whose message contains
"permission" is re-raised immediately; after the budget is exhausted the
last error is re-raised. -/
def retryGo {σ α : Type} (op : σ → Except String α × σ) (initialDelayMs : Nat) :
    Nat → Nat → σ → String → Except String α × σ × Nat × List Nat
  | 0, attempt, st, lastErr => (Except.error lastErr, st, attempt, [])
  | remaining + 1, attempt, st, _ =>
    match op st with
    | (Except.ok v, st2) => (Except.ok v, st2, attempt + 1, [])
    | (Except.error e, st2) =>
      if isPermissionError e then (Except.error e, st2, attempt + 1, [])
      else
        let ds : List Nat := if remaining ≠ 0 then [initialDelayMs * 2 ^ attempt] else []
        let r := retryGo op initialDelayMs remaining (attempt + 1) st2 e
        (r.1, r.2.1, r.2.2.1, ds ++ r.2.2.2)

/-- withRetry of src/src/index.ts:63-83. -/
def withRetry {σ α : Type} (op : σ → Except String α × σ) (maxRetries initialDelayMs : Nat)
    (st : σ) : Except String α × σ × Nat × List Nat :=
  retryGo op initialDelayMs maxRetries 0 st ("")

/-! ## The store adapter (getSession, src/src/index.ts:129-157) -/

/-- One attempt of getSession's inner operation (src/src/index.ts:134-153).
fault is the store's behaviour oracle: fault n = some _ means the n-th kv.get
call raises; the catch block then logs and throws a fresh
Error with message "Failed to access session data" - note the original
message (for instance a permission error) is discarded.  On a successful get:
absent gives null; a record failing isFormSession is deleted (quarantine) and
reported as null; otherwise the record is returned narrowed. -/
def getSessionAttemptF (fault : Nat → Option String) (sid : String) :
    Nat × Store → Except String (Option FormSession) × (Nat × Store)
  | (n, st) =>
    match fault n with
    | some _ => (Except.error ("Failed to access session data"), (n + 1, st))
    | none =>
      match kvGetRaw st (sessionKey sid) with
      | none => (Except.ok none, (n + 1, st))
      | some d =>
        if isFormSession d then (Except.ok (toSessionNarrow d), (n + 1, st))
        else (Except.ok none, (n + 1, kvDelete st (sessionKey sid)))

/-- getSession: the inner operation wrapped in withRetry with 3 attempts and a
200ms initial delay (src/src/index.ts:154-156). -/
def getSessionModel (fault : Nat → Option String) (sid : String) (st : Store) :
    Except String (Option FormSession) × (Nat × Store) × Nat × List Nat :=
  withRetry (getSessionAttemptF fault sid) 3 200 (0, st)

/-- getSession against a fault-free store. -/
def getSessionFF (sid : String) (st : Store) :
    Except String (Option FormSession) × (Nat × Store) × Nat × List Nat :=
  getSessionModel (fun _ => none) sid st

/-! ## The update engine (updateSession, src/src/index.ts:159-215) -/

/-- A partial update (Partial of FormSession): each field is present or
absent.  Any supplied id, created_at or updated_at is discarded by the merge
(the source overrides all three after the spread), and a supplied
current_step is overwritten by the derived step; both facts are visible below. -/
structure SessionUpdate where
  id : Option String := none
  current_step : Option Int := none
  personal_info : Option PersonalInfo := none
  plan_selection : Option PlanSelection := none
  addons : Option (List String) := none
  created_at : Option String := none
  updated_at : Option String := none
deriving DecidableEq

/-- The merged session's personal_info is present and passes its schema
(src/src/index.ts:185-188). -/
def sectionPersonalOk (s : FormSession) : Bool :=
  match s.personal_info with
  | some p => personalInfoValid p
  | none => false

/-- The merged session's plan_selection is present and passes its schema
(src/src/index.ts:191-194). -/
def sectionPlanOk (s : FormSession) : Bool :=
  match s.plan_selection with
  | some p => planSelectionValid p
  | none => false

/-- The merged session's addons list is present and passes its schema
(src/src/index.ts:197-200); the empty list passes. -/
def sectionAddonsOk (s : FormSession) : Bool :=
  match s.addons with
  | some l => l.all addonIdValid
  | none => false

/-- The merge of src/src/index.ts:176-182: start from the existing session,
overlay the supplied fields, then force id to the existing id and both
created_at and updated_at to now (any supplied id or timestamps are thereby
discarded). -/
def mergeSession (existing : FormSession) (u : SessionUpdate) (now : String) : FormSession :=
  { id := existing.id
    current_step :=
      match u.current_step with
      | some c => c
      | none => existing.current_step
    personal_info := u.personal_info <|> existing.personal_info
    plan_selection := u.plan_selection <|> existing.plan_selection
    addons := u.addons <|> existing.addons
    created_at := some now
    updated_at := some now }

/-- The step derivation of src/src/index.ts:184-202: newStep starts at the
existing current_step (the base) and is raised to at least 2, 3 and 4 as the
merged personal, plan and addons sections (independently) validate. -/
def deriveStep (base : Int) (s : FormSession) : Int :=
  let step2 : Int := if sectionPersonalOk s then max base 2 else base
  let step3 : Int := if sectionPlanOk s then max step2 3 else step2
  if sectionAddonsOk s then max step3 4 else step3

/-- One attempt of updateSession's read-merge-derive-check-write cycle
(src/src/index.ts:167-211), on a fault-free store; now is the timestamp of
the write.  The fetch goes through the full (itself retried) getSession.  The
merged (possibly caller-supplied) current_step is overwritten by the derived
step.  A derived step outside [1,4] fails the attempt; otherwise the session
is written back and returned. -/
def updateCyclePure (sid : String) (u : SessionUpdate) (now : String) (st : Store) :
    Except String FormSession × Store :=
  match getSessionFF sid st with
  | (Except.error e, (_, st1), _, _) => (Except.error e, st1)
  | (Except.ok none, (_, st1), _, _) =>
    (Except.error ("Session does not exist for update."), st1)
  | (Except.ok (some existing), (_, st1), _, _) =>
    let merged : FormSession := mergeSession existing u now
    let finalSession : FormSession :=
      { merged with current_step := deriveStep existing.current_step merged }
    if finalSession.current_step < 1 ∨ finalSession.current_step > 4 then
      (Except.error (("Invalid step value: ") ++ toString finalSession.current_step), st1)
    else
      (Except.ok finalSession, kvPut st1 (sessionKey sid) finalSession.toRaw)

/-- updateSession: the cycle wrapped in withRetry with MAX_RETRIES attempts
and INITIAL_RETRY_DELAY_MS initial delay (src/src/index.ts:166-214). -/
def updateSessionModel (sid : String) (u : SessionUpdate) (now : String) (st : Store) :
    Except String FormSession × Store × Nat × List Nat :=
  withRetry (updateCyclePure sid u now) MAX_RETRIES INITIAL_RETRY_DELAY_MS st

deriving instance DecidableEq for Except

/-! ## Step functions stated from the spec's words (for comparison) -/

/-- Follows the spec's words, not the source: the claimed derived
current_step, recomputed purely from content ("1 by default, at least 2 once
personal_info validates, at least 3 once plan_selection also validates, at
least 4 once addons also validates"), cumulatively. -/
def specDerivedStep (s : FormSession) : Int :=
  if sectionPersonalOk s && sectionPlanOk s && sectionAddonsOk s then 4
  else if sectionPersonalOk s && sectionPlanOk s then 3
  else if sectionPersonalOk s then 2
  else 1

/-- The content-derived step the source actually folds into its running max:
4 if the addons section validates, else 3 if the plan section validates, else
2 if the personal section validates, else 1.  The sections are tested
independently, not cumulatively. -/
def contentStep (s : FormSession) : Int :=
  if sectionAddonsOk s then 4
  else if sectionPlanOk s then 3
  else if sectionPersonalOk s then 2
  else 1

/-! ## The submission total (src/src/index.ts:542-577) -/

/-- A catalog plan (id, name, monthly_price, yearly_price).  The catalog
values live in the types module, which is not under src/; the structure is
the one the spec's external-interfaces section declares, and all theorems
below are parametric in the catalog. -/
structure Plan where
  id : String
  name : String
  monthly_price : ℚ
  yearly_price : ℚ
deriving DecidableEq

/-- A catalog addon, with the same price fields as a plan. -/
structure Addon where
  id : String
  name : String
  monthly_price : ℚ
  yearly_price : ℚ
deriving DecidableEq

/-- Price selection by billing period (monthly or anything else yearly),
as written at src/src/index.ts:552-555 and 564-567. -/
def billingPrice (m y : ℚ) (billing : String) : ℚ :=
  if billing == ("monthly") then m else y

/-- parseFloat((x).toFixed(2)): rounding to 2 decimal places, modelled as
exact decimal rounding on rationals (the spec's non-goals declare the total
computation to be plain arithmetic). -/
def round2 (x : ℚ) : ℚ :=
  ((round ((100 : ℚ) * x) : ℤ) : ℚ) / 100

/-- The total computation of the submit handler (src/src/index.ts:542-577):
none when the session has no plan_selection or the selected plan is not in
the catalog (the handler returns a 400 in those cases); otherwise the plan's
price at the selected billing period plus the prices of the session's addons
that exist in the catalog (missing ids are dropped, as by filter(Boolean)),
at the same billing period, rounded to 2 decimal places. -/
def computeSubmitTotal (plans : List Plan) (cat : List Addon) (s : FormSession) : Option ℚ :=
  match s.plan_selection with
  | none => none
  | some sel =>
    match plans.find? (fun p => p.id == sel.plan_id) with
    | none => none
    | some plan =>
      let planPrice := billingPrice plan.monthly_price plan.yearly_price sel.billing_period
      let addonPrices := (s.addons.getD []).filterMap
        (fun aid => (cat.find? (fun a => a.id == aid)).map
          (fun a => billingPrice a.monthly_price a.yearly_price sel.billing_period))
      let addonsTotal := addonPrices.foldl (fun sum p => sum + p) 0
      some (round2 (planPrice + addonsTotal))

/-! ## The navigation sub-operation -/

/-- The step bound of NavigateSchema (schemas module): a number in [1,4]. -/
def navigateStepValid (step : Int) : Bool :=
  decide (1 ≤ step) && decide (step ≤ 4)

/-- Modelled from the spec: the navigation sub-operation itself is not under
src/ (only its request schema, NavigateSchema, is).  Per the spec's update
engine section: given a requested target step, reject with CannotSkipAhead if
the target exceeds the session's current step; otherwise set current_step to
the target explicitly (bypassing derivation) and persist.  The request is
first gated by NavigateSchema, and the timestamps are refreshed by the merge
as in every update. -/
def navigateSession (sid : String) (target : Int) (now : String) (st : Store) :
    Except String FormSession × Store :=
  if !(navigateStepValid target) then (Except.error ("ValidationFailed"), st)
  else
    match getSessionFF sid st with
    | (Except.error e, (_, st1), _, _) => (Except.error e, st1)
    | (Except.ok none, (_, st1), _, _) =>
      (Except.error ("Session does not exist for update."), st1)
    | (Except.ok (some existing), (_, st1), _, _) =>
      if existing.current_step < target then (Except.error ("CannotSkipAhead"), st1)
      else
        let s' : FormSession :=
          { existing with current_step := target, created_at := some now, updated_at := some now }
        (Except.ok s', kvPut st1 (sessionKey sid) s'.toRaw)

/-! ## The validation-and-sanitization pipeline for personal_info
(schemas module: PersonalInfoSchema and sanitizePersonalInfo; the variant
that src/src/index.ts imports, the one exporting sessionIdSchema) -/

/-- The phone normalization val.replace of non-digit non-plus characters by
nothing, used both by the schema's transform and by sanitizePersonalInfo. -/
def phoneNormalize (s : String) : String :=
  String.mk (s.data.filter (fun c => c.isDigit || c == '+'))

/-- Leading and trailing whitespace removed (String.prototype.trim). -/
def trimChars (l : List Char) : List Char :=
  ((l.dropWhile Char.isWhitespace).reverse.dropWhile Char.isWhitespace).reverse

/-- email.trim().toLowerCase() of sanitizePersonalInfo, characterwise (the
inputs of interest are ASCII). -/
def emailNormalize (s : String) : String :=
  String.mk ((trimChars s.data).map Char.toLower)

/-- PersonalInfoSchema.safeParse as a parser: on success the phone is
replaced by its normalization (the transform); name and email are returned
unchanged (email has checks only). -/
def schemaParsePersonal (p : PersonalInfo) : Option PersonalInfo :=
  if personalInfoValid p then some { p with phone := phoneNormalize p.phone } else none

/-- sanitizePersonalInfo of the schemas module: normalizes the phone again,
throws when fewer than 10 characters remain, strips markup from the name
(sanitize-html is an external collaborator, abstracted as the function sh)
and trims and lower-cases the email. -/
def sanitizePersonalInfo (sh : String → String) (info : PersonalInfo) :
    Except String PersonalInfo :=
  let phone := phoneNormalize info.phone
  if phone.length < 10 then Except.error ("Phone number too short")
  else Except.ok { name := sh info.name, email := emailNormalize info.email, phone := phone }

/-- The personal-info route pipeline (src/src/index.ts:260-289): the body is
validated by PersonalInfoSchema, then the parsed value is sanitized. -/
def personalPipeline (sh : String → String) (raw : PersonalInfo) : Except String PersonalInfo :=
  match schemaParsePersonal raw with
  | none => Except.error ("ValidationFailed")
  | some parsed => sanitizePersonalInfo sh parsed

/-- A persistently failing operation for the C3 witness: every attempt raises
"store down" (a non-permission error); the state counts attempts. -/
def failingOp (n : Nat) : Except String Nat × Nat :=
  (Except.error ("store down"), n + 1)

/-! ## Concrete data for the update-engine claims -/

/-- A schema-valid personal_info section. -/
def pOkW : PersonalInfo := ⟨("Jo Lee"), ("jo@ex.com"), ("+15550100000")⟩

/-- An existing stored session at step 2 with valid personal_info. -/
def exW : FormSession := ⟨("abc"), 2, some pOkW, none, none, some ("t0"), some ("t0")⟩

/-- A store holding exW under its session key. -/
def stW : Store := [(sessionKey ("abc"), exW.toRaw)]

/-- A partial update overwriting personal_info with schema-invalid content
(name shorter than 2 characters, email failing every email check). -/
def uBad : SessionUpdate := { personal_info := some ⟨("J"), ("bad"), ("1")⟩ }

/-- The session the update engine writes for stW and uBad. -/
def sCex : FormSession :=
  ⟨("abc"), 2, some ⟨("J"), ("bad"), ("1")⟩, none, none, some ("t1"), some ("t1")⟩

/-- The concrete raw personal_info of the spec scenario (with a schema-clean
email, since the schema validates before any trimming). -/
def rawW : PersonalInfo := ⟨("Jo Lee"), ("JO@Ex.com"), ("555-0100-000")⟩

/-- The catalog plan for the C6 witness. -/
def planW : Plan := ⟨("pro"), ("Pro"), 15, 150⟩

/-- A submittable session with the pro plan, yearly billing, and no addons. -/
def sSubW : FormSession :=
  ⟨("abc"), 4, some pOkW, some ⟨("pro"), ("yearly")⟩, some [], some ("t0"), some ("t0")⟩

/-! ## General lemmas about the embedding -/

/-- Reading back the key just written returns the written record. -/
theorem kvGetRaw_put (st : Store) (k : String) (v : RawData) :
    kvGetRaw (kvPut st k v) k = some v := by
  simp [kvGetRaw, kvPut, List.find?]

/-- A fault-free getSession resolves on its first attempt: absent key. -/
theorem getSessionFF_absent (sid : String) (st : Store)
    (h : kvGetRaw st (sessionKey sid) = none) :
    getSessionFF sid st = (Except.ok none, (1, st), 1, []) := by
  simp [getSessionFF, getSessionModel, withRetry, retryGo, getSessionAttemptF, h]

/-- A fault-free getSession resolves on its first attempt: corrupt record
(fails the shape check), which is quarantined. -/
theorem getSessionFF_corrupt (sid : String) (st : Store) (d : RawData)
    (h : kvGetRaw st (sessionKey sid) = some d) (hf : isFormSession d = false) :
    getSessionFF sid st = (Except.ok none, (1, kvDelete st (sessionKey sid)), 1, []) := by
  simp [getSessionFF, getSessionModel, withRetry, retryGo, getSessionAttemptF, h, hf]

/-- A fault-free getSession resolves on its first attempt: valid record. -/
theorem getSessionFF_valid (sid : String) (st : Store) (d : RawData)
    (h : kvGetRaw st (sessionKey sid) = some d) (hf : isFormSession d = true) :
    getSessionFF sid st = (Except.ok (toSessionNarrow d), (1, st), 1, []) := by
  simp [getSessionFF, getSessionModel, withRetry, retryGo, getSessionAttemptF, h, hf]

/-- A record passing the shape check has a string id and an in-range numeric
current_step. -/
theorem isFormSession_fields (d : RawData) (h : isFormSession d = true) :
    ∃ i n, d.id = some i ∧ d.current_step = some n ∧ 1 ≤ n ∧ n ≤ 4 := by
  unfold isFormSession at h
  simp only [Bool.and_eq_true] at h
  obtain ⟨⟨⟨⟨hid, hstep⟩, _⟩, _⟩, _⟩ := h
  obtain ⟨i, hi⟩ := Option.isSome_iff_exists.mp hid
  cases hn : d.current_step with
  | none => rw [hn] at hstep; exact absurd hstep (by simp)
  | some n =>
    rw [hn] at hstep
    simp only [decide_eq_true_eq] at hstep
    exact ⟨i, n, hi, rfl, hstep.1, hstep.2⟩

/-- Narrowing a record passing the shape check succeeds, preserves
current_step bounds, and re-serializes to the original record. -/
theorem toSessionNarrow_of_valid (d : RawData) (h : isFormSession d = true) :
    ∃ ex, toSessionNarrow d = some ex ∧ 1 ≤ ex.current_step ∧ ex.current_step ≤ 4 ∧
      ex.toRaw = d := by
  obtain ⟨i, n, hi, hn, h1, h4⟩ := isFormSession_fields d h
  refine ⟨⟨i, n, d.personal_info, d.plan_selection, d.addons, d.created_at, d.updated_at⟩, ?_, h1, h4, ?_⟩
  · unfold toSessionNarrow; rw [hi, hn]
  · unfold FormSession.toRaw
    cases d
    simp_all

/-- Inversion: a successful fault-free fetch comes from a stored record that
passes the shape check and narrows to the returned session. -/
theorem getSessionFF_ok_inv (sid : String) (st : Store) (ex : FormSession)
    (rest : (Nat × Store) × Nat × List Nat)
    (h : getSessionFF sid st = (Except.ok (some ex), rest)) :
    ∃ d, kvGetRaw st (sessionKey sid) = some d ∧ isFormSession d = true ∧
      toSessionNarrow d = some ex ∧ rest = ((1, st), 1, []) := by
  cases hkv : kvGetRaw st (sessionKey sid) with
  | none => rw [getSessionFF_absent sid st hkv] at h; simp at h
  | some d =>
    by_cases hf : isFormSession d
    · rw [getSessionFF_valid sid st d hkv hf] at h
      refine ⟨d, rfl, hf, ?_, ?_⟩
      · have := congrArg Prod.fst h
        simp at this
        rw [this]
      · have := congrArg Prod.snd h
        simp at this
        rw [← this]
    · rw [getSessionFF_corrupt sid st d hkv (by simp [hf])] at h
      simp at h

/-- Bounds on the current_step of any successfully fetched session. -/
theorem getSessionFF_range (sid : String) (st : Store) (ex : FormSession)
    (rest : (Nat × Store) × Nat × List Nat)
    (h : getSessionFF sid st = (Except.ok (some ex), rest)) :
    1 ≤ ex.current_step ∧ ex.current_step ≤ 4 := by
  obtain ⟨d, _, hf, hnar, _⟩ := getSessionFF_ok_inv sid st ex rest h
  obtain ⟨ex2, hex2, h1, h4, _⟩ := toSessionNarrow_of_valid d hf
  rw [hnar] at hex2
  cases hex2
  exact ⟨h1, h4⟩

/-- The retry wrapper itself re-raises immediately, with no delay and no
further attempt, an error whose message contains "permission" raised directly
by the operation it wraps. -/
theorem withRetry_failFast {σ α : Type} (op : σ → Except String α × σ) (s0 st1 : σ)
    (e : String) (h : op s0 = (Except.error e, st1)) (hp : isPermissionError e = true)
    (m d : Nat) (hm : m ≠ 0) :
    withRetry op m d s0 = (Except.error e, st1, 1, []) := by
  cases m with
  | zero => exact absurd rfl hm
  | succ k => simp [withRetry, retryGo, h, hp]

/-- C2 (evidence of the code bug): a store whose get raises a permission
error on every call.  getSession's catch block rewraps the error as
"Failed to access session data", which does not contain "permission", so the
retry wrapper does not fail fast: the fetch is attempted 3 times, with 200ms
and 400ms backoff delays, and the wrapped (non-permission) error is what
finally surfaces - not one attempt with an immediate re-raise. -/
theorem getSession_permission_error_retried :
    getSessionModel (fun _ => some ("permission denied")) ("abc") [] =
      (Except.error ("Failed to access session data"), (3, []), 3, [200, 400]) := rfl

/-- C3: when the wrapped operation fails on every attempt with errors outside
the permission class, updateSession's retry policy (withRetry with
MAX_RETRIES = 3 and INITIAL_RETRY_DELAY_MS = 100) makes exactly 3 attempts,
sleeps 100ms then 200ms between them (the base delay doubling each retry),
and surfaces the last attempt's error to the caller. -/
theorem withRetry_exhausts_budget {σ α : Type} (op : σ → Except String α × σ) (s0 : σ)
    (hfail : ∀ s : σ, ∃ e : String, (op s).1 = Except.error e ∧ isPermissionError e = false) :
    (withRetry op MAX_RETRIES INITIAL_RETRY_DELAY_MS s0).2.2.1 = 3 ∧
    (withRetry op MAX_RETRIES INITIAL_RETRY_DELAY_MS s0).2.2.2 = [100, 200] ∧
    (withRetry op MAX_RETRIES INITIAL_RETRY_DELAY_MS s0).1 = (op ((op ((op s0).2)).2)).1 := by
  obtain ⟨e1, h1, q1⟩ := hfail s0
  set s1 := (op s0).2 with hs1
  obtain ⟨e2, h2, q2⟩ := hfail s1
  set s2 := (op s1).2 with hs2
  obtain ⟨e3, h3, q3⟩ := hfail s2
  set s3 := (op s2).2 with hs3
  have E1 : op s0 = (Except.error e1, s1) := Prod.ext h1 hs1.symm
  have E2 : op s1 = (Except.error e2, s2) := Prod.ext h2 hs2.symm
  have E3 : op s2 = (Except.error e3, s3) := Prod.ext h3 hs3.symm
  refine ⟨?_, ?_, ?_⟩ <;>
    simp [withRetry, MAX_RETRIES, INITIAL_RETRY_DELAY_MS, retryGo, E1, E2, E3, q1, q2, q3]

/-- C3 witness: the policy theorem applied to the persistently failing
operation at the initial state 0. -/
theorem withRetry_exhausts_budget_witness :
    (withRetry failingOp MAX_RETRIES INITIAL_RETRY_DELAY_MS 0).2.2.1 = 3 ∧
    (withRetry failingOp MAX_RETRIES INITIAL_RETRY_DELAY_MS 0).2.2.2 = [100, 200] ∧
    (withRetry failingOp MAX_RETRIES INITIAL_RETRY_DELAY_MS 0).1 =
      (failingOp ((failingOp ((failingOp 0).2)).2)).1 :=
  withRetry_exhausts_budget failingOp 0 (fun _ => ⟨"store down", rfl, rfl⟩)

/-- C4: a stored record that deserializes but fails the isFormSession shape
check is deleted from the store and reported absent; and a fault-free load
never returns a session whose serialized form fails the shape check. -/
theorem getSession_quarantine (sid : String) (st : Store) :
    (∀ d : RawData, kvGetRaw st (sessionKey sid) = some d → isFormSession d = false →
       getSessionFF sid st = (Except.ok none, (1, kvDelete st (sessionKey sid)), 1, []))
  ∧ (∀ (s : FormSession) (rest : (Nat × Store) × Nat × List Nat),
       getSessionFF sid st = (Except.ok (some s), rest) → isFormSession s.toRaw = true) := by
  constructor
  · intro d h hf
    exact getSessionFF_corrupt sid st d h hf
  · intro s rest h
    obtain ⟨d, _, hf, hnar, _⟩ := getSessionFF_ok_inv sid st s rest h
    obtain ⟨ex2, hex2, _, _, hraw⟩ := toSessionNarrow_of_valid d hf
    rw [hnar] at hex2
    cases hex2
    rw [hraw]
    exact hf

/-- C4 witness: a record with current_step 99 is quarantined: load returns
absent and the record is removed from the store. -/
theorem getSession_quarantine_witness :
    getSessionFF ("xyz")
        [(sessionKey ("xyz"), (⟨some ("xyz"), some 99, none, none, none, none, none⟩ : RawData))] =
      (Except.ok none, (1, []), 1, []) := by
  have h := (getSession_quarantine ("xyz")
      [(sessionKey ("xyz"), (⟨some ("xyz"), some 99, none, none, none, none, none⟩ : RawData))]).1
    (⟨some ("xyz"), some 99, none, none, none, none, none⟩ : RawData) rfl rfl
  simpa using h

/-- C5: applying any partial update to a session id absent from the store
fails with the session-not-found error after the 3 retry attempts (with the
100ms and 200ms backoff delays) and leaves the entire store unchanged: no
record is created or modified. -/
theorem update_missing_session (sid : String) (u : SessionUpdate) (now : String) (st : Store)
    (h : kvGetRaw st (sessionKey sid) = none) :
    updateSessionModel sid u now st =
      (Except.error ("Session does not exist for update."), st, 3, [100, 200]) := by
  have hcyc : updateCyclePure sid u now st =
      (Except.error ("Session does not exist for update."), st) := by
    unfold updateCyclePure
    rw [getSessionFF_absent sid st h]
  have hperm : isPermissionError ("Session does not exist for update.") = false := by decide
  simp [updateSessionModel, withRetry, MAX_RETRIES, INITIAL_RETRY_DELAY_MS, retryGo, hcyc, hperm]

/-- C5 witness: the theorem applied to the empty store. -/
theorem update_missing_session_witness :
    updateSessionModel ("abc") {} ("t1") [] =
      (Except.error ("Session does not exist for update."), [], 3, [100, 200]) :=
  update_missing_session ("abc") {} ("t1") [] rfl

/-! ## The update engine's step arithmetic -/

/-- The derived step never drops below its base. -/
theorem deriveStep_ge (base : Int) (s : FormSession) : base ≤ deriveStep base s := by
  unfold deriveStep
  simp only [Int.max_def]
  split_ifs <;> omega

/-- For a base of at least 1 (every fetched session), the source's running
max over independent section checks equals the max of the base with the
content-derived step. -/
theorem deriveStep_eq_max (base : Int) (s : FormSession) (hb : 1 ≤ base) :
    deriveStep base s = max base (contentStep s) := by
  unfold deriveStep contentStep
  by_cases h1 : sectionPersonalOk s <;> by_cases h2 : sectionPlanOk s <;>
    by_cases h3 : sectionAddonsOk s <;>
    simp only [h1, h2, h3, if_true, if_false, Int.max_def] <;> split_ifs <;> omega

/-- Overwriting current_step does not change the content-derived step. -/
theorem contentStep_set_step (s : FormSession) (c : Int) :
    contentStep { s with current_step := c } = contentStep s := rfl

/-- Unfolding of the update cycle when the fetch finds an existing session. -/
theorem updateCycle_of_fetch (sid : String) (u : SessionUpdate) (now : String) (st : Store)
    (ex : FormSession) (rest : (Nat × Store) × Nat × List Nat)
    (hg : getSessionFF sid st = (Except.ok (some ex), rest)) :
    updateCyclePure sid u now st =
      (let merged : FormSession := mergeSession ex u now
       let fs : FormSession := { merged with current_step := deriveStep ex.current_step merged }
       if fs.current_step < 1 ∨ fs.current_step > 4 then
         (Except.error (("Invalid step value: ") ++ toString fs.current_step), st)
       else (Except.ok fs, kvPut st (sessionKey sid) fs.toRaw)) := by
  obtain ⟨d, _, _, _, hrest⟩ := getSessionFF_ok_inv sid st ex rest hg
  subst hrest
  unfold updateCyclePure
  rw [hg]

/-- Inversion of a successful update cycle: the returned session is the
merged session with the derived step, and it is written to the store. -/
theorem updateCycle_ok_inv (sid : String) (u : SessionUpdate) (now : String) (st : Store)
    (ex : FormSession) (rest : (Nat × Store) × Nat × List Nat)
    (s' : FormSession) (st2 : Store)
    (hg : getSessionFF sid st = (Except.ok (some ex), rest))
    (hu : updateCyclePure sid u now st = (Except.ok s', st2)) :
    s' = { mergeSession ex u now with
           current_step := deriveStep ex.current_step (mergeSession ex u now) } ∧
    st2 = kvPut st (sessionKey sid) s'.toRaw := by
  rw [updateCycle_of_fetch sid u now st ex rest hg] at hu
  simp only at hu
  split at hu
  · simp at hu
  · have h1 := congrArg Prod.fst hu
    have h2 := congrArg Prod.snd hu
    simp only at h1 h2
    have hs : s' = { mergeSession ex u now with
        current_step := deriveStep ex.current_step (mergeSession ex u now) } := by
      have := h1
      simp at this
      exact this.symm
    exact ⟨hs, by rw [← h2, hs]⟩

/-- C1 counterexample: overwriting the personal_info section of a step-2
session with schema-invalid data leaves current_step at 2, while the step
recomputed from content per the claim would be 1: the resulting step is not
the highest step whose prerequisite data is currently schema-valid, and the
step is not lowered. -/
theorem update_step_not_recomputed_cex :
    (updateSessionModel ("abc") uBad ("t1") stW).1 = Except.ok sCex ∧
    sCex.current_step = 2 ∧ specDerivedStep sCex = 1 := ⟨rfl, rfl, rfl⟩

/-- C1 (amended): for every partial update applied by the update engine to an
existing session, the written current_step equals the maximum of the existing
session's current_step and the step derived from the merged content (2, 3 or
4 as the personal, plan and addons sections independently validate, else 1);
it is never recomputed downward, so overwriting a section with invalid data
leaves the step at its existing value. -/
theorem update_step_merge_max (sid : String) (u : SessionUpdate) (now : String) (st : Store)
    (ex : FormSession) (rest : (Nat × Store) × Nat × List Nat)
    (s' : FormSession) (st2 : Store)
    (hg : getSessionFF sid st = (Except.ok (some ex), rest))
    (hu : updateCyclePure sid u now st = (Except.ok s', st2)) :
    s'.current_step = max ex.current_step (contentStep s') := by
  obtain ⟨hs', _⟩ := updateCycle_ok_inv sid u now st ex rest s' st2 hg hu
  have hb := (getSessionFF_range sid st ex rest hg).1
  subst hs'
  rw [contentStep_set_step]
  exact deriveStep_eq_max ex.current_step (mergeSession ex u now) hb

/-- C1 witness: the amended theorem at the concrete store stW and update uBad. -/
theorem update_step_merge_max_witness :
    sCex.current_step = max exW.current_step (contentStep sCex) :=
  update_step_merge_max ("abc") uBad ("t1") stW exW ((1, stW), 1, []) sCex
    (kvPut stW (sessionKey ("abc")) sCex.toRaw) rfl rfl

/-- C8: every session written by a successful update-engine cycle has
created_at equal to updated_at, both set to the write time, keeps the
existing session's id, and is exactly what is stored under the session key
afterwards. -/
theorem update_timestamps_equal (sid : String) (u : SessionUpdate) (now : String) (st : Store)
    (ex : FormSession) (rest : (Nat × Store) × Nat × List Nat)
    (s' : FormSession) (st2 : Store)
    (hg : getSessionFF sid st = (Except.ok (some ex), rest))
    (hu : updateCyclePure sid u now st = (Except.ok s', st2)) :
    s'.created_at = s'.updated_at ∧ s'.updated_at = some now ∧ s'.id = ex.id ∧
    kvGetRaw st2 (sessionKey sid) = some s'.toRaw := by
  obtain ⟨hs', hst2⟩ := updateCycle_ok_inv sid u now st ex rest s' st2 hg hu
  subst hst2
  refine ⟨?_, ?_, ?_, kvGetRaw_put st (sessionKey sid) s'.toRaw⟩ <;> rw [hs'] <;> rfl

/-- C8 witness: the theorem at the concrete store stW and update uBad. -/
theorem update_timestamps_equal_witness :
    sCex.created_at = sCex.updated_at ∧ sCex.updated_at = some ("t1") ∧
    sCex.id = exW.id ∧
    kvGetRaw (kvPut stW (sessionKey ("abc")) sCex.toRaw) (sessionKey ("abc")) =
      some sCex.toRaw :=
  update_timestamps_equal ("abc") uBad ("t1") stW exW ((1, stW), 1, []) sCex
    (kvPut stW (sessionKey ("abc")) sCex.toRaw) rfl rfl

/-- C10: the update engine ignores any caller-supplied current_step (the
cycle's outcome is unchanged when that field is removed from the update), and
every successful cycle writes a current_step at least the existing session's
current_step: no call through the update engine lowers a session's step. -/
theorem update_step_monotone (sid : String) (u : SessionUpdate) (now : String) (st : Store) :
    (updateCyclePure sid u now st = updateCyclePure sid { u with current_step := none } now st)
  ∧ (∀ (ex : FormSession) (rest : (Nat × Store) × Nat × List Nat)
       (s' : FormSession) (st2 : Store),
      getSessionFF sid st = (Except.ok (some ex), rest) →
      updateCyclePure sid u now st = (Except.ok s', st2) →
      ex.current_step ≤ s'.current_step) := by
  constructor
  · rfl
  · intro ex rest s' st2 hg hu
    obtain ⟨hs', _⟩ := updateCycle_ok_inv sid u now st ex rest s' st2 hg hu
    subst hs'
    exact deriveStep_ge ex.current_step (mergeSession ex u now)

/-- C10 witness: the theorem at the concrete store stW with an update that
explicitly supplies current_step 1: the supplied value is discarded and the
written step stays at 2. -/
theorem update_step_monotone_witness :
    (updateCyclePure ("abc") { uBad with current_step := some 1 } ("t1") stW =
      updateCyclePure ("abc") uBad ("t1") stW)
  ∧ exW.current_step ≤ sCex.current_step :=
  ⟨(update_step_monotone ("abc") { uBad with current_step := some 1 } ("t1") stW).1,
   (update_step_monotone ("abc") uBad ("t1") stW).2 exW ((1, stW), 1, []) sCex
     (kvPut stW (sessionKey ("abc")) sCex.toRaw) rfl rfl⟩

/-! ## Navigation (C7) -/

/-- C7 (navigation modelled from the spec; only NavigateSchema is in src/):
for every fetched session and every target step within the schema's [1,4]
bound, navigation fails with CannotSkipAhead exactly when the target exceeds
the session's current_step; otherwise it succeeds and persists a session
whose current_step is exactly the requested target. -/
theorem navigate_policy (sid : String) (target : Int) (now : String) (st : Store)
    (ex : FormSession) (rest : (Nat × Store) × Nat × List Nat)
    (hv : navigateStepValid target = true)
    (hg : getSessionFF sid st = (Except.ok (some ex), rest)) :
    (ex.current_step < target →
       navigateSession sid target now st = (Except.error ("CannotSkipAhead"), st))
  ∧ (target ≤ ex.current_step →
       ∃ s' : FormSession,
         navigateSession sid target now st =
           (Except.ok s', kvPut st (sessionKey sid) s'.toRaw) ∧
         s'.current_step = target ∧
         kvGetRaw (kvPut st (sessionKey sid) s'.toRaw) (sessionKey sid) = some s'.toRaw) := by
  obtain ⟨d, _, _, _, hrest⟩ := getSessionFF_ok_inv sid st ex rest hg
  subst hrest
  constructor
  · intro hlt
    simp [navigateSession, hv, hg, hlt]
  · intro hle
    refine ⟨{ ex with current_step := target, created_at := some now, updated_at := some now },
      ?_, rfl, kvGetRaw_put _ _ _⟩
    simp [navigateSession, hv, hg, not_lt.mpr hle]

/-- C7 witness: navigating the step-2 session exW back to step 1 succeeds and
persists step 1. -/
theorem navigate_policy_witness :
    ∃ s' : FormSession,
      navigateSession ("abc") 1 ("t2") stW =
        (Except.ok s', kvPut stW (sessionKey ("abc")) s'.toRaw) ∧
      s'.current_step = 1 ∧
      kvGetRaw (kvPut stW (sessionKey ("abc")) s'.toRaw) (sessionKey ("abc")) =
        some s'.toRaw :=
  (navigate_policy ("abc") 1 ("t2") stW exW ((1, stW), 1, []) rfl rfl).2 (by decide)

/-! ## The sanitization pipeline (C9) -/

/-- Normalizing a phone twice is the same as normalizing it once. -/
theorem phoneNormalize_idem (s : String) :
    phoneNormalize (phoneNormalize s) = phoneNormalize s := by
  simp [phoneNormalize, List.filter_filter]

/-- Every character of a normalized phone is a digit or '+'. -/
theorem phoneNormalize_chars (s : String) :
    (phoneNormalize s).data.all (fun c => c.isDigit || c == '+') = true := by
  rw [List.all_eq_true]
  intro c hc
  have := List.mem_filter.mp hc
  simpa using this.2

/-- C9: every personal_info accepted by the validation-and-sanitization
pipeline has a stored phone consisting only of decimal digits and '+',
of length at least 10 after normalization; and every input whose normalized
phone is shorter than 10 characters is rejected by the pipeline. -/
theorem personal_phone_normalized (sh : String → String) (raw : PersonalInfo) :
    (∀ out : PersonalInfo, personalPipeline sh raw = Except.ok out →
       out.phone.data.all (fun c => c.isDigit || c == '+') = true ∧ 10 ≤ out.phone.length)
  ∧ ((phoneNormalize raw.phone).length < 10 →
       ∀ out : PersonalInfo, personalPipeline sh raw ≠ Except.ok out) := by
  constructor
  · intro out hout
    unfold personalPipeline schemaParsePersonal at hout
    by_cases hv : personalInfoValid raw
    · rw [if_pos hv] at hout
      dsimp only at hout
      unfold sanitizePersonalInfo at hout
      simp only [phoneNormalize_idem] at hout
      split at hout
      · simp at hout
      · rename_i hlen
        simp only [Except.ok.injEq] at hout
        subst hout
        refine ⟨phoneNormalize_chars raw.phone, ?_⟩
        show 10 ≤ (phoneNormalize raw.phone).length
        omega
    · rw [if_neg hv] at hout
      simp at hout
  · intro hlen out hout
    unfold personalPipeline schemaParsePersonal at hout
    by_cases hv : personalInfoValid raw
    · rw [if_pos hv] at hout
      dsimp only at hout
      unfold sanitizePersonalInfo at hout
      simp only [phoneNormalize_idem] at hout
      rw [if_pos hlen] at hout
      simp at hout
    · rw [if_neg hv] at hout
      simp at hout

/-- C9 witness: the pipeline accepts rawW, storing phone "5550100000", whose
characters are digits only and whose length is 10. -/
theorem personal_phone_normalized_witness :
    (⟨("Jo Lee"), ("jo@ex.com"), ("5550100000")⟩ : PersonalInfo).phone.data.all
      (fun c => c.isDigit || c == '+') = true ∧
    10 ≤ (⟨("Jo Lee"), ("jo@ex.com"), ("5550100000")⟩ : PersonalInfo).phone.length :=
  (personal_phone_normalized id rawW).1
    (⟨("Jo Lee"), ("jo@ex.com"), ("5550100000")⟩ : PersonalInfo) (by decide)

/-! ## The submission total (C6) -/

/-- Rounding to 2 decimal places is the identity on whole-cent amounts. -/
theorem round2_cents (k : ℤ) : round2 ((k : ℚ) / 100) = (k : ℚ) / 100 := by
  unfold round2
  have h : (100 : ℚ) * ((k : ℚ) / 100) = (k : ℚ) := by
    rw [mul_comm, div_mul_cancel₀]
    norm_num
  rw [h, round_intCast]

/-- C6: for every catalog and every session whose selected plan exists in the
catalog, the submission total is the plan's price at the selected billing
period plus the sum of the selected addons' prices at that same billing
period, rounded to 2 decimal places; and when the session's addons list is
empty and the plan's price is a whole number of cents, the total equals the
plan price exactly. -/
theorem submit_total_formula (plans : List Plan) (cat : List Addon) (s : FormSession)
    (sel : PlanSelection) (plan : Plan) (k : ℤ)
    (hsel : s.plan_selection = some sel)
    (hplan : plans.find? (fun p => p.id == sel.plan_id) = some plan) :
    (computeSubmitTotal plans cat s =
       some (round2 (billingPrice plan.monthly_price plan.yearly_price sel.billing_period +
         ((s.addons.getD []).filterMap
           (fun aid => (cat.find? (fun a => a.id == aid)).map
             (fun a => billingPrice a.monthly_price a.yearly_price sel.billing_period))).sum)))
  ∧ (s.addons = some [] →
       billingPrice plan.monthly_price plan.yearly_price sel.billing_period = (k : ℚ) / 100 →
       computeSubmitTotal plans cat s =
         some (billingPrice plan.monthly_price plan.yearly_price sel.billing_period)) := by
  constructor
  · simp [computeSubmitTotal, hsel, hplan, List.sum_eq_foldl]
  · intro ha hk
    simp only [computeSubmitTotal, hsel, hplan, ha, Option.getD_some, List.filterMap_nil,
      List.foldl_nil]
    rw [hk, add_zero, round2_cents]

/-- C6 witness: with an empty addons list the total is exactly the plan's
yearly price. -/
theorem submit_total_formula_witness :
    computeSubmitTotal [planW] [] sSubW =
      some (billingPrice planW.monthly_price planW.yearly_price ("yearly")) :=
  (submit_total_formula [planW] [] sSubW ⟨("pro"), ("yearly")⟩ planW 15000 rfl rfl).2
    rfl (by norm_num [billingPrice, planW]; decide)
